import Mathlib

/-!
Verification of the loocius experiment framework's core logic:
control-sequence generation (`loocius/tools/control.py`,
`loocius/tmp/tools/control.py`), session persistence
(`loocius/tools/data.py`, `loocius/data.py`) and the trial-advance
state machine of the colour-priors experiment
(`loocius/tmp/experiments/colour-priors.py`).

Dictionaries emitted by the generators are modelled as association
lists `List (String × α)` (Python 3.6+ keyword arguments preserve
insertion order, and every emitted dictionary is built with the same
key order, so list equality coincides with dictionary equality).
-/

namespace Loocius

/-- Embedding of Python's `itertools.product(*levels)`: the first list is
the outermost (slowest-varying) coordinate, the last list varies fastest. -/
def pyProduct {α : Type} : List (List α) → List (List α)
  | [] => [[]]
  | l :: ls => l.flatMap (fun x => (pyProduct ls).map (fun t => x :: t))

/-- The list of descriptors built by the comprehension
`[{f: l for f, l in zip(factors, t)} for t in product(*levels)]` in
`make_control_list` (`loocius/tools/control.py`, lines 27-29). -/
def crossProduct {α : Type} (factors : List (String × List α)) :
    List (List (String × α)) :=
  (pyProduct (factors.map (fun f => f.2))).map
    (fun t => List.zip (factors.map (fun f => f.1)) t)

/-- Embedding of `make_control_list(reps, shuffled, **kwargs)`
(`loocius/tools/control.py`, lines 8-36).  `control *= reps` is the whole
cross product repeated `reps` times consecutively; the call to
`random.shuffle` is modelled by the explicit permutation `shuf`, applied
only when `shuffled` is true. -/
def make_control_list {α : Type} (reps : Nat) (shuffled : Bool)
    (shuf : List (List (String × α)) → List (List (String × α)))
    (factors : List (String × List α)) : List (List (String × α)) :=
  let control := crossProduct factors
  let control := (List.replicate reps control).flatten
  if shuffled then shuf control else control

/-- Embedding of `rand_control_sequence(**kwargs)`
(`loocius/tmp/tools/control.py`, lines 5-21): same cross product, but the
dictionary comprehension keeps only the factors whose name does not have
`'_'` as its first character (`if f[0] != '_'`, modelled as
`data.head? != some '_'`), and the result is always shuffled (modelled
by the explicit permutation `shuf`).  There is no `reps` argument in
this variant. -/
def rand_control_sequence {α : Type}
    (shuf : List (List (String × α)) → List (List (String × α)))
    (factors : List (String × List α)) : List (List (String × α)) :=
  let control := (pyProduct (factors.map (fun f => f.2))).map
    (fun t => (List.zip (factors.map (fun f => f.1)) t).filter
      (fun p => p.1.data.head? != some '_'))
  shuf control

/-- Second definition, following the spec's wording for the unshuffled
order (claim about `shuffled=False`): the cross product enumerated with
levels in the order supplied and later-listed factors varying fastest.
Used only to be compared against `crossProduct`, which is translated from
the source. -/
def crossProductSpecOrder {α : Type} :
    List (String × List α) → List (List (String × α))
  | [] => [[]]
  | (f, ls) :: rest =>
      ls.flatMap (fun l => (crossProductSpecOrder rest).map
        (fun d => (f, l) :: d))

theorem pyProduct_length {α : Type} (ls : List (List α)) :
    (pyProduct ls).length = (ls.map List.length).prod := by
  induction ls with
  | nil => rfl
  | cons l ls ih =>
      simp only [pyProduct, List.length_flatMap, List.length_map,
        List.map_cons, List.prod_cons, ← ih]
      rw [show (List.length ∘ fun x : α =>
            List.map (fun t => x :: t) (pyProduct ls))
          = fun _ : α => (pyProduct ls).length from funext fun x => by simp]
      rw [List.map_const']
      simp [List.sum_replicate, smul_eq_mul]

theorem pyProduct_mem_length {α : Type} (ls : List (List α))
    (t : List α) (ht : t ∈ pyProduct ls) : t.length = ls.length := by
  induction ls generalizing t with
  | nil => simp [pyProduct] at ht; simp [ht]
  | cons l ls ih =>
      simp [pyProduct] at ht
      obtain ⟨x, _, u, hu, rfl⟩ := ht
      simp [ih u hu]

theorem crossProduct_length {α : Type} (factors : List (String × List α)) :
    (crossProduct factors).length
      = (factors.map (fun f => f.2.length)).prod := by
  unfold crossProduct
  rw [List.length_map, pyProduct_length, List.map_map]
  rfl

theorem crossProduct_eq_specOrder {α : Type}
    (factors : List (String × List α)) :
    crossProduct factors = crossProductSpecOrder factors := by
  induction factors with
  | nil => rfl
  | cons f rest ih =>
      obtain ⟨name, ls⟩ := f
      rw [crossProductSpecOrder, ← ih]
      simp only [crossProduct, List.map_cons, pyProduct,
        List.map_flatMap, List.map_map]
      rfl

theorem count_flatten_replicate {β : Type} [BEq β]
    (n : Nat) (c : List β) (d : β) :
    ((List.replicate n c).flatten).count d = n * c.count d := by
  induction n with
  | zero => simp
  | succ n ih =>
      simp [List.replicate_succ, List.count_append, ih, Nat.succ_mul,
        Nat.add_comm]

theorem perm_count_eq {β : Type} [BEq β] {l1 l2 : List β}
    (h : l1.Perm l2) (d : β) : l1.count d = l2.count d := by
  simpa [List.count] using h.countP_eq (fun x => x == d)

/-- The circular response-error computation of `ColourPriors.trial`
(`loocius/tmp/experiments/colour-priors.py`, lines 499-501):

`err = (rsp - hue, rsp + 360 - hue)[(abs(rsp - hue), abs(rsp + 360 - hue)).index(min(abs(rsp - hue), abs(rsp + 360 - hue)))]`

i.e. whichever of the two signed differences has the smaller absolute
value, the first one on ties (`tuple.index` returns the first position of
the minimum). -/
def errFun (rsp hue : Int) : Int :=
  if |rsp - hue| ≤ |rsp + 360 - hue| then rsp - hue else rsp + 360 - hue

/-- Trial mode: the control sequence of the colour-priors experiment uses
the string values `'random'` and `'telephone'`. -/
inductive Mode : Type
  | random : Mode
  | telephone : Mode
deriving DecidableEq, Repr

/-- A trial-details dictionary of the colour-priors experiment: the four
factor fields placed by `gen_control` (`mode`, `stim`, `dur`, `chain`)
plus the runtime fields added by `trial` (`hue`, `rt`, `rsp`, `err`,
`accept`), absent (`none`) until assigned. -/
structure Desc : Type where
  mode : Mode
  stim : String
  dur : Int
  chain : Int
  hue : Option Int := none
  rt : Option Int := none
  rsp : Option Int := none
  err : Option Int := none
  accept : Option Bool := none
deriving DecidableEq, Repr

/-- The per-session state touched by `ColourPriors.trial`: the data
object's `control` (remaining) and `results` (completed) sequences and
`exp_done` flag, plus the widget's `current_trial_details`. -/
structure Session : Type where
  control : List Desc
  results : List Desc
  exp_done : Bool
  current : Option Desc
deriving DecidableEq, Repr

/-- The hue-selection logic of `ColourPriors.trial`
(`loocius/tmp/experiments/colour-priors.py`, lines 520-544): for mode
`'random'` a fresh `randint(0, 360)` draw (modelled by `randHue`);
otherwise filter `results` for entries with `mode == 'telephone'`, the
same `stim` and the same `chain`, take the last match's `hue` value if
any match exists, and fall back to a fresh random draw when none does.
Returns `none` on a `KeyError` (a matching result without a `hue` key,
which never arises for results produced by `trial`). -/
def selectHue (results : List Desc) (d : Desc) (randHue : Int) :
    Option Int :=
  match d.mode with
  | Mode.random => some randHue
  | Mode.telephone =>
      let matching := results.filter
        (fun t => t.mode == Mode.telephone && t.stim == d.stim
          && t.chain == d.chain)
      match matching.getLast? with
      | some t => t.hue
      | none => some randHue

/-- Embedding of `ColourPriors.trial`
(`loocius/tmp/experiments/colour-priors.py`, lines 486-586).  `rt` models
`self.trial_time.elapsed()`, `rsp` models `self.dial.value()`, `shuf`
models the in-place `random.shuffle` and `randHue` the `randint(0, 360)`
draw.  Returns `none` when the Python code raises (`KeyError 'hue'` on a
current trial without a hue, or `IndexError` on `pop(0)` from an empty
control list).  Faithful step order: if a current trial exists, annotate
it with `rt`, `rsp`, `err` and `accept`, append it to `results`, append
the same annotated dictionary to `control` and shuffle `control`
(unconditionally — the guard announced by the comment on line 509 is
absent); then pop the head of `control`, select its hue and make it the
current trial. -/
def trial (s : Session) (rt rsp : Int)
    (shuf : List Desc → List Desc) (randHue : Int) : Option Session :=
  let step1 : Option Session :=
    match s.current with
    | none => some s
    | some d =>
        match d.hue with
        | none => none
        | some hue =>
            let err := errFun rsp hue
            let accept := decide (err < 40) && decide (300 < rt)
              && decide (rt < 5000)
            let annotated : Desc :=
              { d with rt := some rt, rsp := some rsp, err := some err,
                       accept := some accept }
            some { s with
              results := s.results ++ [annotated],
              control := shuf (s.control ++ [annotated]) }
  match step1 with
  | none => none
  | some s1 =>
      match s1.control with
      | [] => none
      | d :: rest =>
          match selectHue s1.results d randHue with
          | none => none
          | some hue =>
              some { s1 with
                control := rest,
                current := some { d with hue := some hue } }

/-- Values stored in a pickled `Data.dic` dictionary
(`loocius/tools/data.py`). -/
inductive PVal : Type where
  | str (s : String)
  | ostr (s : Option String)
  | bool (b : Bool)
  | octrl (c : Option (List Desc))
  | res (r : List Desc)
deriving DecidableEq, Repr

/-- The dictionary captured by `self.dic = locals()` in `Data.__init__`
(`loocius/tools/data.py`, line 49).  At that point the local variables of
`__init__` are exactly its parameters `self`, `subj_id`, `exp_name` and
`proj_id`; the values already assigned as attributes (`exp_done`,
`control`, `results`, ...) are attributes of `self`, not locals, so they
are NOT keys of this dictionary.  The `self` entry contributes no string
key looked up by `load` and is omitted. -/
def initDic (subj exp_name : String) (proj : Option String) :
    String → Option PVal :=
  fun k =>
    if k = "subj_id" then some (PVal.str subj)
    else if k = "exp_name" then some (PVal.str exp_name)
    else if k = "proj_id" then some (PVal.ostr proj)
    else none

/-- `self.relpath = '%s_%s.dic' % (self.subj_id, self.exp_name)`
(`loocius/tools/data.py`, line 44); the `data_path` prefix of `abspath`
is a fixed string and is dropped from the model. -/
def abspathOf (subj exp_name : String) : String :=
  subj ++ "_" ++ exp_name ++ ".dic"

/-- The `Data` object of `loocius/tools/data.py`: identity fields, the
session state (`exp_done`, `control`, `results`), the backing path and
the `dic` dictionary that `save` pickles. -/
structure Data : Type where
  subj_id : String
  exp_name : String
  proj_id : Option String
  exp_done : Bool
  control : Option (List Desc)
  results : List Desc
  abspath : String
  dic : String → Option PVal

/-- The state of a fresh `Data` object right after the default
assignments of `__init__` (`loocius/tools/data.py`, lines 33-49), before
the automatic `self.load()` call: `exp_done = False`, `control = None`,
`results = []`, and `dic` is the `locals()` snapshot. -/
def Data.mkInit (subj exp_name : String) (proj : Option String) : Data :=
  { subj_id := subj
    exp_name := exp_name
    proj_id := proj
    exp_done := false
    control := none
    results := []
    abspath := abspathOf subj exp_name
    dic := initDic subj exp_name proj }

/-- Embedding of `Data.load` (`loocius/tools/data.py`, lines 55-74) over
a backing store `fs` mapping paths to pickled dictionaries.  If the file
exists, unpickle it into `self.dic`, assert the stored `subj_id` and
`exp_name` match, then read `exp_done`, `control` and `results` out of
the dictionary; a missing key is a `KeyError`, a failed assertion an
`AssertionError`, both modelled as `Except.error`. -/
def Data.load (fs : String → Option (String → Option PVal)) (d : Data) :
    Except String Data :=
  match fs d.abspath with
  | none => Except.ok d
  | some dic =>
      match dic "subj_id" with
      | some (PVal.str s) =>
          if s = d.subj_id then
            match dic "exp_name" with
            | some (PVal.str e) =>
                if e = d.exp_name then
                  match dic "exp_done", dic "control", dic "results" with
                  | some (PVal.bool b), some (PVal.octrl c),
                    some (PVal.res r) =>
                      Except.ok { d with dic := dic, exp_done := b,
                                         control := c, results := r }
                  | _, _, _ => Except.error "KeyError"
                else Except.error "wrong experiment"
            | _ => Except.error "KeyError"
          else Except.error "wrong subject id"
      | _ => Except.error "KeyError"

/-- Embedding of `Data.save` (`loocius/tools/data.py`, lines 76-81):
`dump(self.dic, open(self.abspath, 'w'))` — writes `self.dic` to the
backing path unconditionally; there is no check of `subj_id` against the
`'TEST'` sentinel in this variant. -/
def Data.save (fs : String → Option (String → Option PVal)) (d : Data) :
    String → Option (String → Option PVal) :=
  fun p => if p = d.abspath then some d.dic else fs p

/-- The `Data` class of `loocius/data.py` (the `save_data`/`load_data`
variant). -/
structure DataObj : Type where
  subj_id : String
  lang : String
  user_id : String
  proj_id : String
  test_name : String
  initialised : Nat
  last_opened : Nat
  data_abs_filename : String
  test_started : Bool
  test_done : Bool
deriving DecidableEq, Repr

/-- `Data.__init__` of `loocius/data.py` (lines 62-85): the backing
filename is `pj(data_path, proj_id, subj_id, '%s.data' % initialised)`
(the fixed `data_path` prefix is dropped); `initialised`, `last_opened`
model the `datetime.now()` timestamps via the clock value `now`. -/
def DataObj.init (subj lang user proj test : String) (now : Nat) :
    DataObj :=
  { subj_id := subj
    lang := lang
    user_id := user
    proj_id := proj
    test_name := test
    initialised := now
    last_opened := now
    data_abs_filename := proj ++ "/" ++ subj ++ "/" ++ toString now
      ++ ".data"
    test_started := false
    test_done := false }

/-- Embedding of `save_data` (`loocius/data.py`, lines 8-25) over a
backing store mapping paths to pickled records: after ensuring the
directories exist (not modelled — directory creation stores no record),
the record is pickled to `data_obj.data_abs_filename` only when
`data_obj.subj_id != 'TEST'`; for the `'TEST'` sentinel nothing is
written and the function returns normally. -/
def save_data (fs : String → Option DataObj) (d : DataObj) :
    String → Option DataObj :=
  if d.subj_id ≠ "TEST" then
    fun p => if p = d.data_abs_filename then some d else fs p
  else fs

/-- Embedding of `load_data` (`loocius/data.py`, lines 28-51): construct
a fresh `Data` instance; then `if exists(data_obj.data_abs_filename) is
False:` open the backing file for reading, unpickle the old record,
stamp `last_opened` and return it — on this branch the file does not
exist, so `open(..., 'r')` raises `IOError` (modelled as
`Except.error`); `else:` when the file does exist, return the freshly
constructed instance if `create_if_not_found` is true (and fall off the
end, returning `None`, otherwise). -/
def load_data (fs : String → Option DataObj) (now : Nat)
    (subj lang user proj test : String) (create_if_not_found : Bool) :
    Except String (Option DataObj) :=
  let data_obj := DataObj.init subj lang user proj test now
  if (fs data_obj.data_abs_filename).isSome = false then
    match fs data_obj.data_abs_filename with
    | some old => Except.ok (some { old with last_opened := now })
    | none => Except.error "IOError"
  else
    if create_if_not_found then Except.ok (some data_obj)
    else Except.ok none

theorem length_flatten_replicate {β : Type} (n : Nat) (c : List β) :
    ((List.replicate n c).flatten).length = n * c.length := by
  induction n with
  | zero => simp
  | succ n ih =>
      simp [List.replicate_succ, ih, Nat.succ_mul, Nat.add_comm]

/-- C1: `ColourPriors.trial` is claimed to push the finished descriptor
back onto `remaining` only when the outcome is rejected, so that
`remaining` shrinks by 1 on an accepted trial.  The code appends the
annotated descriptor back to the control list unconditionally (the
`only if rejected` guard exists only as the comment on line 509 of
`loocius/tmp/experiments/colour-priors.py`).  Evaluation at a concrete
accepted trial (`err = 10 < 40`, `rt = 1000` inside the window): the
control list still holds 2 entries afterwards, not 1, and the single
completed result is marked accepted. -/
theorem trial_requeues_accepted_trial :
    ((trial
        { control := [{ mode := Mode.random, stim := "banana.png",
                        dur := 1, chain := 0 },
                      { mode := Mode.random, stim := "tree.png",
                        dur := 2, chain := 0 }]
          results := []
          exp_done := false
          current := some { mode := Mode.random, stim := "banana.png",
                            dur := 1, chain := 0, hue := some 0 } }
        1000 10 id 7).map
      (fun s => (s.control.length, s.results.map Desc.accept)))
    = some (2, [some true]) := by
  decide

/-- C2: once `remaining` empties, the claim says `done` is set true and
any further advance fails with `AlreadyComplete`, leaving the state
unchanged.  The code never assigns `exp_done` and performs no
completeness check: evaluating at a one-descriptor session, the call that
empties the control list leaves `exp_done = false`, and the subsequent
call succeeds (no error), appends a result and re-queues/pops the
finished descriptor instead of failing. -/
theorem trial_never_sets_done :
    ((trial
        { control := [{ mode := Mode.random, stim := "banana.png",
                        dur := 1, chain := 0 }]
          results := []
          exp_done := false
          current := none }
        0 0 id 5).map (fun s => (s.control, s.exp_done))
      = some ([], false))
    ∧ (((trial
          { control := [{ mode := Mode.random, stim := "banana.png",
                          dur := 1, chain := 0 }]
            results := []
            exp_done := false
            current := none }
          0 0 id 5).bind
        (fun s1 => trial s1 1000 10 id 6)).map
          (fun s => (s.exp_done, s.results.length, s.control.length))
      = some (false, 1, 0)) := by
  decide

/-- C3 counterexample: the claim says the computed error is invariant
under `target + 360` and always lies in `[0, 180]`.  At `rsp = 270`,
`target = 0` the code yields `270` (outside `[0, 180]`), and at the
wrapped target `360` it yields `-90 ≠ 270`. -/
theorem errFun_not_circular :
    errFun 270 0 = 270 ∧ errFun 270 360 = -90
    ∧ ¬(errFun 270 0 ≤ 180) ∧ errFun 270 0 ≠ errFun 270 360 := by
  decide

/-- C3 amended: the computed error is the member of
`\x7brsp - target, rsp - target + 360\x7d` with the smaller absolute value
(the first on ties), so its absolute value equals
`min |rsp - target| |rsp + 360 - target|`; it is signed, not confined to
`[0, 180]`, and not invariant under `target + 360`. -/
theorem errFun_min_abs_choice (rsp target : Int) :
    (errFun rsp target = rsp - target
      ∨ errFun rsp target = rsp - target + 360)
    ∧ |errFun rsp target| = min |rsp - target| |rsp + 360 - target| := by
  unfold errFun
  split_ifs with h
  · exact ⟨Or.inl rfl, (min_eq_left h).symm⟩
  · exact ⟨Or.inr (by ring), (min_eq_right (le_of_not_le h)).symm⟩

/-- C4: save-then-load round trip.  For any `Data` object whose `dic` is
the `locals()` snapshot taken in `__init__` (which is every object the
code ever constructs, since nothing after line 49 writes `self.dic`
except `load` itself), `save()` pickles a dictionary containing only the
keys `self`, `subj_id`, `exp_name`, `proj_id`; a subsequent `load()`
passes both identity assertions and then raises
`KeyError: 'exp_done'` — it can never return a record equal to the saved
one, whatever the current `control`/`results`/`exp_done` values are. -/
theorem data_save_then_load_keyerror
    (fs : String → Option (String → Option PVal)) (d : Data)
    (h : d.dic = initDic d.subj_id d.exp_name d.proj_id) :
    Data.load (Data.save fs d) d = Except.error "KeyError" := by
  simp [Data.load, Data.save, initDic, h]

/-- Witness for C4 at a concrete freshly initialised record. -/
theorem data_save_then_load_keyerror_witness :
    Data.load (Data.save (fun _ => none) (Data.mkInit "s1" "e1" none))
      (Data.mkInit "s1" "e1" none) = Except.error "KeyError" :=
  data_save_then_load_keyerror (fun _ => none)
    (Data.mkInit "s1" "e1" none) rfl

/-- C5: the claim says saving a record whose subject id is the `'TEST'`
sentinel never writes.  `save_data` (`loocius/data.py`) honours this, but
`Data.save` (`loocius/tools/data.py`) has no sentinel check: saving a
fresh `TEST` record into an empty store makes its dictionary findable at
the backing path, while `save_data` on a `TEST` record leaves the empty
store empty. -/
theorem tools_save_writes_for_test_sentinel :
    (Data.save (fun _ => none) (Data.mkInit "TEST" "e1" none)
        (abspathOf "TEST" "e1") = some (initDic "TEST" "e1" none))
    ∧ (∀ p, save_data (fun _ => none)
        (DataObj.init "TEST" "EN" "user" "proj" "exp" 0) p = none) := by
  constructor
  · simp [Data.save, Data.mkInit]
  · intro p
    simp [save_data, DataObj.init]

/-- C6: for a telephone-mode trial the claim says the controller reuses
the OUTCOME value (`rsp`) of the most recent matching completed trial.
The code reuses that trial's `'hue'` key — its input parameter — instead
(`loocius/tmp/experiments/colour-priors.py`, line 538).  Evaluation with
one matching completed trial having `hue = 100` and response
`rsp = 250`: the new trial is given hue 100, not the outcome 250. -/
theorem trial_telephone_reuses_hue_not_outcome :
    ((trial
        { control := [{ mode := Mode.telephone, stim := "banana.png",
                        dur := 1, chain := 0 }]
          results := [{ mode := Mode.telephone, stim := "banana.png",
                        dur := 1, chain := 0, hue := some 100,
                        rt := some 1000, rsp := some 250, err := some 10,
                        accept := some true }]
          exp_done := false
          current := none }
        0 0 id 7).map (fun s => s.current.bind Desc.hue))
      = some (some 100)
    ∧ (Desc.rsp { mode := Mode.telephone, stim := "banana.png",
                  dur := 1, chain := 0, hue := some 100, rt := some 1000,
                  rsp := some 250, err := some 10, accept := some true })
      = some 250
    ∧ (100 : Int) ≠ 250 := by
  decide

/-- C7: for every repetition count, factor map and permutation used as
the shuffle, the generated control list has length
`reps * prod(level counts)`; every descriptor occurs `reps` times as
often as in the factorial cross product (so each combination of the
cross product appears exactly `reps` times); and `reps = 0` yields the
empty list. -/
theorem make_control_list_length_count {α : Type} [DecidableEq α]
    (reps : Nat) (shuffled : Bool)
    (shuf : List (List (String × α)) → List (List (String × α)))
    (factors : List (String × List α))
    (hshuf : ∀ l, (shuf l).Perm l) :
    (make_control_list reps shuffled shuf factors).length
        = reps * (factors.map (fun f => f.2.length)).prod
    ∧ (∀ d, (make_control_list reps shuffled shuf factors).count d
        = reps * (crossProduct factors).count d)
    ∧ (reps = 0 → make_control_list reps shuffled shuf factors = []) := by
  refine ⟨?_, ?_, ?_⟩
  · simp only [make_control_list]
    split
    · rw [(hshuf _).length_eq, length_flatten_replicate,
        crossProduct_length]
    · rw [length_flatten_replicate, crossProduct_length]
  · intro d
    simp only [make_control_list]
    split
    · rw [perm_count_eq (hshuf _), count_flatten_replicate]
    · rw [count_flatten_replicate]
  · intro h
    subst h
    simp only [make_control_list]
    split
    · have h0 : (List.replicate 0 (crossProduct factors)).flatten
          = ([] : List (List (String × α))) := rfl
      rw [h0]
      exact (hshuf []).eq_nil
    · rfl

/-- Witness for C7: the identity permutation and the spec's own scenario
`reps = 2`, factors `a ↦ [1, 2]`, `b ↦ [10, 20]` (8 descriptors). -/
theorem make_control_list_length_count_witness :
    (∀ l : List (List (String × Int)), (id l).Perm l)
    ∧ (make_control_list 2 true id
        [("a", [(1 : Int), 2]), ("b", [10, 20])]).length
      = 2 * ([("a", [(1 : Int), 2]), ("b", [10, 20])].map
          (fun f => f.2.length)).prod :=
  ⟨fun l => List.Perm.refl l,
   (make_control_list_length_count 2 true id
      [("a", [(1 : Int), 2]), ("b", [10, 20])]
      (fun l => List.Perm.refl l)).1⟩

/-- C8 counterexample: the claim says "the generator" excludes
marker-prefixed factor names from every emitted descriptor, but
`make_control_list` (`loocius/tools/control.py`) performs no marker
filtering: with the single underscore-named factor `_t` it emits a
descriptor carrying the key `"_t"`. -/
theorem make_control_list_keeps_marker_factor :
    make_control_list 1 false id [("_t", [(0 : Int)])] = [[("_t", 0)]]
    ∧ "_t".data.head? = some '_' := by
  decide

/-- C8 amended: the marker convention is implemented by
`rand_control_sequence` (`loocius/tmp/tools/control.py`): no emitted
descriptor contains a key starting with the underscore marker, while
every factor's level count — marker-prefixed ones included — still
multiplies the length of the generated sequence.  `make_control_list`
(`loocius/tools/control.py`) performs no such exclusion. -/
theorem rand_control_sequence_excludes_marker {α : Type}
    (shuf : List (List (String × α)) → List (List (String × α)))
    (factors : List (String × List α))
    (hshuf : ∀ l, (shuf l).Perm l) :
    (∀ d ∈ rand_control_sequence shuf factors, ∀ p ∈ d,
        p.1.data.head? ≠ some '_')
    ∧ (rand_control_sequence shuf factors).length
        = (factors.map (fun f => f.2.length)).prod := by
  constructor
  · intro d hd p hp
    have hd2 : d ∈ (pyProduct (factors.map (fun f => f.2))).map
        (fun t => (List.zip (factors.map (fun f => f.1)) t).filter
          (fun q => q.1.data.head? != some '_')) := by
      simp only [rand_control_sequence] at hd
      exact ((hshuf _).mem_iff).1 hd
    obtain ⟨t, _, rfl⟩ := List.mem_map.1 hd2
    have hq := (List.mem_filter.1 hp).2
    simpa using hq
  · simp only [rand_control_sequence]
    rw [(hshuf _).length_eq, List.length_map, pyProduct_length,
      List.map_map]
    rfl

/-- Witness for C8's amended statement: the identity permutation with a
marker factor `_t` of three levels alongside a two-level factor. -/
theorem rand_control_sequence_excludes_marker_witness :
    (∀ l : List (List (String × Int)), (id l).Perm l)
    ∧ (rand_control_sequence id
        [("mode", [(1 : Int), 2]), ("_t", [3, 4, 5])]).length
      = ([("mode", [(1 : Int), 2]), ("_t", [3, 4, 5])].map
          (fun f => f.2.length)).prod :=
  ⟨fun l => List.Perm.refl l,
   (rand_control_sequence_excludes_marker id
      [("mode", [(1 : Int), 2]), ("_t", [3, 4, 5])]
      (fun l => List.Perm.refl l)).2⟩

/-- C9: with `create_if_not_found` at its default `True`, `load_data`
returns the freshly constructed record exactly when the backing file IS
found, and only when the file is NOT found does it take the branch that
attempts to read and return the pre-existing record (a branch that then
necessarily fails, since `open(..., 'r')` on the missing file raises
`IOError`). -/
theorem load_data_branch_inversion (fs : String → Option DataObj)
    (now : Nat) (subj lang user proj test : String) :
    ((fs (DataObj.init subj lang user proj test
        now).data_abs_filename).isSome = true →
      load_data fs now subj lang user proj test true
        = Except.ok (some (DataObj.init subj lang user proj test now)))
    ∧ (fs (DataObj.init subj lang user proj test
        now).data_abs_filename = none →
      load_data fs now subj lang user proj test true
        = Except.error "IOError") := by
  constructor
  · intro h
    simp [load_data, h]
  · intro h
    simp [load_data, h]

/-- Witness for C9: a store that holds a record at every path (the file
is found, and the freshly initialised record is returned), and the empty
store (the file is missing, and the read branch errors). -/
theorem load_data_branch_inversion_witness :
    ((fun _ : String => some (DataObj.init "s" "EN" "u" "p" "e" 0))
        ((DataObj.init "s" "EN" "u" "p" "e" 1).data_abs_filename)).isSome
      = true
    ∧ load_data (fun _ => some (DataObj.init "s" "EN" "u" "p" "e" 0)) 1
        "s" "EN" "u" "p" "e" true
      = Except.ok (some (DataObj.init "s" "EN" "u" "p" "e" 1))
    ∧ load_data (fun _ => none) 1 "s" "EN" "u" "p" "e" true
      = Except.error "IOError" :=
  ⟨rfl,
   (load_data_branch_inversion
      (fun _ => some (DataObj.init "s" "EN" "u" "p" "e" 0)) 1
      "s" "EN" "u" "p" "e").1 rfl,
   (load_data_branch_inversion (fun _ => none) 1
      "s" "EN" "u" "p" "e").2 rfl⟩

/-- C10: with `shuffled=False` the output of `make_control_list` does
not depend on the random state (the shuffle function is never applied)
and equals the cross product in `itertools.product` order — levels in
the order supplied, later-listed factors varying fastest — repeated
`reps` times consecutively. -/
theorem make_control_list_unshuffled_deterministic {α : Type}
    (reps : Nat)
    (shuf shuf2 : List (List (String × α)) → List (List (String × α)))
    (factors : List (String × List α)) :
    make_control_list reps false shuf factors
        = (List.replicate reps (crossProductSpecOrder factors)).flatten
    ∧ make_control_list reps false shuf factors
        = make_control_list reps false shuf2 factors := by
  constructor
  · simp only [make_control_list, Bool.false_eq_true, if_false]
    rw [crossProduct_eq_specOrder]
  · rfl

end Loocius
